import Mathlib

/-!
Verification of the agent-orchestration core of Web-DISK.

The Python sources (agents/base.py, agents/*_agent.py, agents/coordinator.py)
are embedded shallowly: each handler becomes a pure Lean function over typed
records mirroring the dict payloads that actually flow through the pipeline;
numeric confidence and progress values are modelled over ℚ.
-/

namespace WebDisk

/-- Python `str.isspace` characters that `str.strip()` removes. -/
def pyIsSpace (c : Char) : Bool :=
  c = ' ' || c = '\t' || c = '\n' || c = '\r' || c = '\x0b' || c = '\x0c'

/-- Python `s.strip()`: drop leading and trailing whitespace. -/
def pyStrip (s : String) : String :=
  ⟨((s.toList.dropWhile pyIsSpace).reverse.dropWhile pyIsSpace).reverse⟩

/-- Python `c in s` for a single-character string `c`. -/
def pyCharIn (c : Char) (s : String) : Bool :=
  s.toList.contains c

/-- Entity record as it appears in the extraction/quality/merge payload dicts:
`{name, label, description, embedding}`.  Missing keys default to `""` (the
`entity.get(k, "")` convention of the Python code); the embedding is carried
as an opaque-to-the-claims list of rationals. -/
structure Entity where
  name : String
  label : String
  description : String
  embedding : List ℚ
deriving DecidableEq, Repr

/-- Endpoint reference inside a relation dict: `{"name": ..., "label": ...}`. -/
structure Ref where
  name : String
  label : String
deriving DecidableEq, Repr

/-- Relation record `{start_entity, end_entity, label, name, description,
embedding}` as serialised between the agents. -/
structure Relation where
  start_entity : Ref
  end_entity : Ref
  label : String
  name : String
  description : String
  embedding : List ℚ
deriving DecidableEq, Repr

/-! ### Quality agent (agents/quality_agent.py) -/

/-- `QualityAgent._check_entity`: name length ≥ 2, label non-blank, and no
newline / carriage return / tab inside the name. -/
def check_entity (e : Entity) : List String :=
  (if e.name.length < 2 then ["Name too short"] else []) ++
  (if e.label = "" || pyStrip e.label = "" then ["Missing label"] else []) ++
  (if pyCharIn '\n' e.name || pyCharIn '\r' e.name || pyCharIn '\t' e.name then
    ["Invalid characters in name"] else [])

/-- `QualityAgent._check_relation`: both endpoints must name an approved
entity and the relation must not be self-referential. -/
def check_relation (r : Relation) (entities : List Entity) : List String :=
  let valid_names := entities.map Entity.name
  (if r.start_entity.name ∈ valid_names then []
    else ["Start entity " ++ r.start_entity.name ++ " not found"]) ++
  (if r.end_entity.name ∈ valid_names then []
    else ["End entity " ++ r.end_entity.name ++ " not found"]) ++
  (if r.start_entity.name = r.end_entity.name then ["Self-referential relation"] else [])

/-- `QualityAgent._calculate_confidence`: mean of per-item weights
(1.0 with a description, otherwise 0.7 for entities and 0.8 for relations);
0 when there is nothing to score. -/
def calculate_confidence (entities : List Entity) (relations : List Relation) : ℚ :=
  let entity_scores := entities.map (fun e => if e.description ≠ "" then (1 : ℚ) else 7/10)
  let relation_scores := relations.map (fun r => if r.description ≠ "" then (1 : ℚ) else 8/10)
  if entity_scores = [] ∧ relation_scores = [] then 0
  else (entity_scores ++ relation_scores).sum / ((entity_scores ++ relation_scores).length : ℚ)

/-- Response dict of `QualityAgent._handle_quality_check`. -/
structure QualityResult where
  type : String
  task_id : String
  status : String
  entities : List Entity
  relations : List Relation
  rejected_reasons : List String
  confidence_score : ℚ
deriving DecidableEq, Repr

/-- `QualityAgent._handle_quality_check`: filter the entities through
`_check_entity`, then the relations through `_check_relation` against the
approved entities, collect rejection reasons, and grade the confidence. -/
def handle_quality_check (confidence_threshold : ℚ) (task_id : String)
    (entities : List Entity) (relations : List Relation) : QualityResult :=
  let approved_entities := entities.filter (fun e => check_entity e = [])
  let approved_relations :=
    relations.filter (fun r => check_relation r approved_entities = [])
  let rejected_reasons :=
    (entities.flatMap (fun e =>
      (check_entity e).map (fun issue => "Entity " ++ e.name ++ ": " ++ issue))) ++
    (relations.flatMap (fun r =>
      (check_relation r approved_entities).map (fun issue => "Relation: " ++ issue)))
  let confidence := calculate_confidence approved_entities approved_relations
  let status :=
    if confidence < confidence_threshold then "rejected"
    else if confidence < 8/10 then "needs_review"
    else "approved"
  { type := "quality_result"
    task_id := task_id
    status := status
    entities := approved_entities
    relations := approved_relations
    rejected_reasons := rejected_reasons
    confidence_score := confidence }

/-! ### Extractor agent (agents/extractor_agent.py) -/

/-- Outcome of one call of `ExtractorAgent._extract_sync` on a chunk, as seen
by `_handle_extract`: the extraction raises, returns `None`, or returns a
`(relations, entities)` pair. -/
inductive ExtractOutcome where
  | raises (err : String)
  | noResult
  | ok (entities : List Entity) (relations : List Relation)
deriving DecidableEq, Repr

/-- Response dict of `ExtractorAgent._handle_extract` for one chunk. -/
structure ChunkResult where
  type : String
  task_id : String
  chunk_index : ℕ
  status : String
  entities : List Entity
  relations : List Relation
deriving DecidableEq, Repr

/-- `ExtractorAgent._handle_extract`: an exception from `_extract_sync`
propagates (`Except.error`); a `None` result becomes a `"failed"` chunk
result; otherwise the entities and relations are serialised with
`"success"`. -/
def handle_extract (task_id : String) (chunk_index : ℕ) (outcome : ExtractOutcome) :
    Except String ChunkResult :=
  match outcome with
  | .raises err => .error err
  | .noResult =>
      .ok { type := "extraction_result", task_id := task_id, chunk_index := chunk_index,
            status := "failed", entities := [], relations := [] }
  | .ok entities relations =>
      .ok { type := "extraction_result", task_id := task_id, chunk_index := chunk_index,
            status := "success", entities := entities, relations := relations }

/-- `statistics` dict of the batch extraction response. -/
structure BatchStatistics where
  total_chunks : ℕ
  successful : ℕ
  failed : ℕ
  total_entities : ℕ
  total_relations : ℕ
deriving DecidableEq, Repr

/-- Response dict of `ExtractorAgent._handle_extract_batch`. -/
structure BatchResult where
  type : String
  task_id : String
  entities : List Entity
  relations : List Relation
  statistics : BatchStatistics
deriving DecidableEq, Repr

/-- `ExtractorAgent._handle_extract_batch`: run `_handle_extract` per chunk
(`asyncio.gather(..., return_exceptions=True)` turns a raising chunk into an
`Exception` element), record the raising indices as failed, and concatenate
entities/relations of the results whose status is `"success"`. -/
def handle_extract_batch (task_id : String) (chunks : List ExtractOutcome) : BatchResult :=
  let results := chunks.enum.map (fun p => handle_extract task_id p.1 p.2)
  let failed_indices := results.enum.filterMap (fun p =>
    match p.2 with
    | .error _ => some p.1
    | .ok _ => none)
  let all_entities := results.flatMap (fun r =>
    match r with
    | .error _ => []
    | .ok c => if c.status = "success" then c.entities else [])
  let all_relations := results.flatMap (fun r =>
    match r with
    | .error _ => []
    | .ok c => if c.status = "success" then c.relations else [])
  { type := "batch_extraction_result"
    task_id := task_id
    entities := all_entities
    relations := all_relations
    statistics :=
      { total_chunks := chunks.length
        successful := chunks.length - failed_indices.length
        failed := failed_indices.length
        total_entities := all_entities.length
        total_relations := all_relations.length } }

/-! ### Agent base contract (agents/base.py) -/

/-- The `AgentMessage` fields read by `BaseAgent._process_message` and
`BaseAgent.send_error` (`timestamp`, `target` and `metadata` are carried but
never inspected by the modelled paths, and the payload is only read by the
stage handlers, which are modelled separately above). -/
structure Envelope where
  task_id : String
  type : String
  source : String
  reply_to : Option String
deriving DecidableEq, Repr

/-- A Python dict used as a response payload: association list keyed by
field name. -/
def RDict : Type := List (String × String)

instance : DecidableEq RDict := by unfold RDict; infer_instance

instance : Repr RDict := by unfold RDict; infer_instance

/-- Python truthiness of a handler result: `None` and `{}` are falsy, a
non-empty dict is truthy. -/
def truthy : Option RDict → Bool
  | none => false
  | some d => !d.isEmpty

/-- An envelope as it would appear on the bus: the channel `redis.publish`
is given, plus the `AgentMessage` fields. -/
structure Published where
  channel : String
  task_id : String
  type : String
  source : String
  payload : RDict
deriving DecidableEq, Repr

/-- The `NameError` raised inside `BaseAgent.send` (quotes of the Python
message text omitted): `agents/base.py` imports `asyncio`, `json`, `logging`,
`abc`, `typing`, `redis` and `pydantic` but never `time`, yet `send`
evaluates `timestamp=time.time()` for every dict payload. -/
def nameErrorTime : String := "NameError: name time is not defined"

/-- `BaseAgent.send` on a dict payload: the `AgentMessage(...)` constructor
call evaluates `timestamp=time.time()`, which raises `NameError` — the
module never imports `time` — before `redis.publish` is reached, so the call
publishes nothing and raises instead of returning. -/
def send (agent_id output_channel : String) (payload : RDict)
    (channel : Option String) : Except String Published :=
  .error nameErrorTime

/-- `BaseAgent.send_error`: builds the structured `{type, task_id, error,
original_type}` dict and delegates to `send` with the original envelope's
`reply_to` (or the agent's output channel when no `reply_to` was set), where
the `NameError` fires before anything is published. -/
def send_error (agent_id output_channel : String) (original : Envelope)
    (err : String) : Except String Published :=
  send agent_id output_channel
    [("type", "error"), ("task_id", original.task_id), ("error", err),
      ("original_type", original.type)]
    (some (original.reply_to.getD output_channel))

/-- What a registered handler did with the envelope: returned a value
(possibly `None`) or raised. -/
inductive HandlerOutcome where
  | success (response : Option RDict)
  | raises (err : String)
deriving DecidableEq, Repr

/-- Outcome of one `_process_message` call: the envelopes actually published,
and the exception escaping the call, if any (`_listen`'s own try/except
catches and logs it, then keeps draining the channel). -/
structure ProcessResult where
  published : List Published
  escaped : Option String
deriving DecidableEq, Repr

/-- `BaseAgent._process_message`.  `handler` is
`self._message_handlers.get(msg.type)` together with what the handler does
on this envelope: `none` models a missing handler (logged and dropped).  On
success the result is sent to `reply_to` only when both the result and
`reply_to` are truthy; an exception from the handler or from that `send` is
caught by the `except` clause and routed to `send_error`; an exception
raised inside `send_error` itself escapes the call. -/
def process_message (agent_id output_channel : String)
    (handler : Option HandlerOutcome) (msg : Envelope) : ProcessResult :=
  match handler with
  | none => { published := [], escaped := none }
  | some (.success response) =>
      match response, msg.reply_to with
      | some d, some ch =>
          if !d.isEmpty then
            match send agent_id output_channel d (some ch) with
            | .ok p => { published := [p], escaped := none }
            | .error e =>
                match send_error agent_id output_channel msg e with
                | .ok q => { published := [q], escaped := none }
                | .error e2 => { published := [], escaped := some e2 }
          else { published := [], escaped := none }
      | _, _ => { published := [], escaped := none }
  | some (.raises err) =>
      match send_error agent_id output_channel msg err with
      | .ok q => { published := [q], escaped := none }
      | .error e2 => { published := [], escaped := some e2 }

/-- The receive loop of `BaseAgent._listen`: process, in arrival order, every
envelope delivered on the input channel, accumulating everything actually
published.  An exception escaping `_process_message` is caught and logged by
the loop's own try/except, which then continues with the next envelope;
`handlerFor` gives, per envelope, the registered handler's behaviour. -/
def listen_loop (agent_id output_channel : String)
    (handlerFor : Envelope → Option HandlerOutcome) (delivered : List Envelope) :
    List Published :=
  delivered.flatMap
    (fun m => (process_message agent_id output_channel (handlerFor m) m).published)

/-! ### Merger agent (agents/merger_agent.py) -/

/-- Modelled from the spec: the semantic-merge algorithm
`DISK.merger.merger.Merger.merge` is not among the repository sources under
`src/` (only its caller `MergerAgent._handle_merge` is).  Per §4.3 it treats
two entities as duplicates when their embedding cosine similarity exceeds the
threshold and keeps one representative per duplicate group; here the duplicate
test is abstracted as a boolean predicate `dup`, since every claim proved
below holds for every such predicate.  Each batch entity is dropped when a
kept entity already duplicates it, otherwise appended. -/
def mergeEntities (dup : Entity → Entity → Bool) (existing batch : List Entity) :
    List Entity :=
  batch.foldl (fun acc e => if acc.any (fun k => dup k e) then acc else acc ++ [e]) existing

/-- Modelled from the spec: relation union of `Merger.merge` (§4.3), with the
rewriting of duplicate endpoint references abstracted away (no claim below
depends on the relation list). -/
def mergeRelations (relations1 relations2 : List Relation) : List Relation :=
  relations1 ++ relations2

/-- Modelled from the spec: `Merger.merge(entities1, relations1, entities2,
relations2)` returns the pair `(merged_relations, merged_entities)` unpacked
by `MergerAgent._handle_merge`. -/
def Merger.merge (dup : Entity → Entity → Bool)
    (entities1 : List Entity) (relations1 : List Relation)
    (entities2 : List Entity) (relations2 : List Relation) :
    List Relation × List Entity :=
  (mergeRelations relations1 relations2, mergeEntities dup entities1 entities2)

/-- `statistics` dict of the merge response.  `duplicates_found` is a Python
`int` subtraction, so it is modelled in ℤ. -/
structure MergeStatistics where
  original_count : ℕ
  merged_count : ℕ
  duplicates_found : ℤ
deriving DecidableEq, Repr

/-- Response dict of `MergerAgent._handle_merge`. -/
structure MergeResult where
  type : String
  task_id : String
  merged_entities : List Entity
  merged_relations : List Relation
  statistics : MergeStatistics
deriving DecidableEq, Repr

/-- `MergerAgent._handle_merge`: convert the `batch` and `existing_kg` payload
parts, run `Merger.merge` (existing as `entities1`, batch as `entities2`), and
report `original_count = len(existing) + len(batch)`,
`merged_count = len(merged_entities)` and
`duplicates_found = original_count - merged_count`. -/
def handle_merge (dup : Entity → Entity → Bool) (task_id : String)
    (batch_entities : List Entity) (batch_relations : List Relation)
    (existing_entities : List Entity) (existing_relations : List Relation) :
    MergeResult :=
  let merged := Merger.merge dup existing_entities existing_relations
    batch_entities batch_relations
  let merged_relations := merged.1
  let merged_entities := merged.2
  let original_count := existing_entities.length + batch_entities.length
  let merged_count := merged_entities.length
  { type := "merge_result"
    task_id := task_id
    merged_entities := merged_entities
    merged_relations := merged_relations
    statistics :=
      { original_count := original_count
        merged_count := merged_count
        duplicates_found := (original_count : ℤ) - (merged_count : ℤ) } }

/-! ### Task coordinator (agents/coordinator.py) -/

/-- A request published by the coordinator: the input channel it is published
on and the `AgentMessage` fields relevant to routing. -/
structure SentRequest where
  channel : String
  task_id : String
  type : String
  source : String
  reply_to : Option String
deriving DecidableEq, Repr

/-- `TaskCoordinator._distill_pdf`: request on `agent:distiller:input` with
`response_queue = f"coordinator:{task_id}"`. -/
def distillRequest (task_id : String) : SentRequest :=
  { channel := "agent:distiller:input", task_id := task_id, type := "distill",
    source := "coordinator", reply_to := some ("coordinator:" ++ task_id) }

/-- `TaskCoordinator._extract_batch`: request on `agent:extractor:input` with
`response_queue = f"coordinator:{task_id}:extract"`. -/
def extractBatchRequest (task_id : String) : SentRequest :=
  { channel := "agent:extractor:input", task_id := task_id, type := "extract_batch",
    source := "coordinator", reply_to := some ("coordinator:" ++ task_id ++ ":extract") }

/-- `TaskCoordinator._quality_check`: request on `agent:quality:input` with
`response_queue = f"coordinator:{task_id}:quality"`. -/
def qualityCheckRequest (task_id : String) : SentRequest :=
  { channel := "agent:quality:input", task_id := task_id, type := "quality_check",
    source := "coordinator", reply_to := some ("coordinator:" ++ task_id ++ ":quality") }

/-- `TaskCoordinator._merge`: request on `agent:merger:input` with
`response_queue = f"coordinator:{task_id}:merge"`. -/
def mergeRequest (task_id : String) : SentRequest :=
  { channel := "agent:merger:input", task_id := task_id, type := "merge",
    source := "coordinator", reply_to := some ("coordinator:" ++ task_id ++ ":merge") }

/-- `TaskCoordinator._store`: request on `agent:storage:input` with
`response_queue = f"coordinator:{task_id}:store"`. -/
def storeRequest (task_id : String) : SentRequest :=
  { channel := "agent:storage:input", task_id := task_id, type := "store",
    source := "coordinator", reply_to := some ("coordinator:" ++ task_id ++ ":store") }

/-- State of the coordinator's reply-wait loop (`async for message in
pubsub.listen(): ... if data.get("type") == expected: return`).  `delivered`
is the sequence of envelopes delivered on the reply channel so far; when it
is exhausted the coroutine is still blocked inside `pubsub.listen()` awaiting
the next delivery (`stillWaiting`).  The function has no deadline parameter
because the source loop has none: the `raise TimeoutError(...)` after the
loop runs only if the pubsub stream itself terminates. -/
inductive WaitOutcome where
  | replied (m : Published)
  | stillWaiting
deriving DecidableEq, Repr

/-- The coordinator's reply-wait loop: return the first delivered envelope
whose `type` matches the expected response type; with none delivered so far
(or only non-matching ones), keep waiting. -/
def waitScan (expected : String) (delivered : List Published) : WaitOutcome :=
  match delivered with
  | [] => .stillWaiting
  | m :: rest => if m.type = expected then .replied m else waitScan expected rest

/-- Python `range(0, stop, step)` for `step > 0`. -/
def pyRange0 (stop step : ℕ) : List ℕ :=
  (List.range ((stop + step - 1) / step)).map (fun k => k * step)

/-- The progress values passed to `progress_callback(task_id, "extract", ...)`
by the batching loop of `TaskCoordinator.process_pdf`, in order: for each
`i in range(0, len(chunks), batch_size)` the value
`(i + len(chunks[i : i + batch_size])) / len(chunks)`. -/
def extractProgressReports (total batch_size : ℕ) : List ℚ :=
  (pyRange0 total batch_size).map (fun i =>
    ((i + min batch_size (total - i) : ℕ) : ℚ) / (total : ℚ))

/-! ### Helper lemmas -/

lemma check_entity_eq_nil (e : Entity) :
    check_entity e = [] ↔
      2 ≤ e.name.length ∧ e.label ≠ "" ∧ pyStrip e.label ≠ "" ∧
      pyCharIn '\n' e.name = false ∧ pyCharIn '\r' e.name = false ∧
      pyCharIn '\t' e.name = false := by
  unfold check_entity
  split_ifs with h1 h2 h3 <;> simp_all <;> intros <;> simp_all

lemma check_relation_eq_nil (r : Relation) (es : List Entity) :
    check_relation r es = [] ↔
      r.start_entity.name ∈ es.map Entity.name ∧
      r.end_entity.name ∈ es.map Entity.name ∧
      r.start_entity.name ≠ r.end_entity.name := by
  unfold check_relation
  split_ifs <;> simp_all

lemma handle_quality_check_entities (th : ℚ) (tid : String)
    (entities : List Entity) (relations : List Relation) :
    (handle_quality_check th tid entities relations).entities =
      entities.filter (fun e => check_entity e = []) := rfl

lemma handle_quality_check_relations (th : ℚ) (tid : String)
    (entities : List Entity) (relations : List Relation) :
    (handle_quality_check th tid entities relations).relations =
      relations.filter (fun r =>
        check_relation r (entities.filter (fun e => check_entity e = [])) = []) := rfl

/-! ### C1 -/

/-- C1: every entity in the approved list of a `quality_check` response has a
name of length at least 2, a label that is non-empty and not whitespace-only,
and none of newline, carriage return, or tab in its name; every relation in
the approved list has distinct endpoint names, both of which occur among the
approved entities' names. -/
theorem quality_approved_valid (th : ℚ) (tid : String)
    (entities : List Entity) (relations : List Relation) :
    (∀ e ∈ (handle_quality_check th tid entities relations).entities,
      2 ≤ e.name.length ∧ e.label ≠ "" ∧ pyStrip e.label ≠ "" ∧
      pyCharIn '\n' e.name = false ∧ pyCharIn '\r' e.name = false ∧
      pyCharIn '\t' e.name = false) ∧
    (∀ r ∈ (handle_quality_check th tid entities relations).relations,
      r.start_entity.name ≠ r.end_entity.name ∧
      r.start_entity.name ∈
        ((handle_quality_check th tid entities relations).entities.map Entity.name) ∧
      r.end_entity.name ∈
        ((handle_quality_check th tid entities relations).entities.map Entity.name)) := by
  constructor
  · intro e he
    rw [handle_quality_check_entities, List.mem_filter] at he
    exact (check_entity_eq_nil e).1 (by simpa using he.2)
  · intro r hr
    rw [handle_quality_check_relations, List.mem_filter] at hr
    have h := (check_relation_eq_nil r _).1 (by simpa using hr.2)
    rw [handle_quality_check_entities]
    exact ⟨h.2.2, h.1, h.2.1⟩

def qaEnts : List Entity := [⟨"AI", "Concept", "", []⟩, ⟨"ML", "Tech", "d", []⟩]

def qaRel : Relation := ⟨⟨"AI", "Concept"⟩, ⟨"ML", "Tech"⟩, "uses", "u", "", []⟩

/-- Witness for C1 at the spec's scenario-style input. -/
theorem quality_approved_valid_witness :
    (2 ≤ (Entity.mk "AI" "Concept" "" []).name.length ∧
      (Entity.mk "AI" "Concept" "" ([] : List ℚ)).label ≠ "" ∧
      pyStrip (Entity.mk "AI" "Concept" "" ([] : List ℚ)).label ≠ "" ∧
      pyCharIn '\n' (Entity.mk "AI" "Concept" "" ([] : List ℚ)).name = false ∧
      pyCharIn '\r' (Entity.mk "AI" "Concept" "" ([] : List ℚ)).name = false ∧
      pyCharIn '\t' (Entity.mk "AI" "Concept" "" ([] : List ℚ)).name = false) ∧
    (qaRel.start_entity.name ≠ qaRel.end_entity.name ∧
      qaRel.start_entity.name ∈
        ((handle_quality_check (6/10) "t" qaEnts [qaRel]).entities.map Entity.name) ∧
      qaRel.end_entity.name ∈
        ((handle_quality_check (6/10) "t" qaEnts [qaRel]).entities.map Entity.name)) :=
  ⟨(quality_approved_valid (6/10) "t" qaEnts [qaRel]).1 ⟨"AI", "Concept", "", []⟩
      (by decide),
    (quality_approved_valid (6/10) "t" qaEnts [qaRel]).2 qaRel (by decide)⟩

/-! ### C7 -/

lemma calculate_confidence_def (entities : List Entity) (relations : List Relation) :
    calculate_confidence entities relations =
      if (entities.map (fun e => if e.description ≠ "" then (1 : ℚ) else 7/10)) = [] ∧
          (relations.map (fun r => if r.description ≠ "" then (1 : ℚ) else 8/10)) = [] then 0
      else ((entities.map (fun e => if e.description ≠ "" then (1 : ℚ) else 7/10)) ++
            (relations.map (fun r => if r.description ≠ "" then (1 : ℚ) else 8/10))).sum /
          (((entities.map (fun e => if e.description ≠ "" then (1 : ℚ) else 7/10)) ++
            (relations.map (fun r => if r.description ≠ "" then (1 : ℚ) else 8/10))).length : ℚ) :=
  rfl

lemma scores_bounds (entities : List Entity) (relations : List Relation) :
    ∀ x ∈ (entities.map (fun e => if e.description ≠ "" then (1 : ℚ) else 7/10) ++
        relations.map (fun r => if r.description ≠ "" then (1 : ℚ) else 8/10)),
      7/10 ≤ x ∧ x ≤ 1 := by
  intro x hx
  rcases List.mem_append.1 hx with h | h <;>
    obtain ⟨y, -, rfl⟩ := List.mem_map.1 h <;> split_ifs <;> norm_num

lemma calculate_confidence_nonneg_le_one (entities : List Entity)
    (relations : List Relation) :
    0 ≤ calculate_confidence entities relations ∧
      calculate_confidence entities relations ≤ 1 := by
  rw [calculate_confidence_def]
  split_ifs with h
  · norm_num
  · set S := entities.map (fun e => if e.description ≠ "" then (1 : ℚ) else 7/10) ++
      relations.map (fun r => if r.description ≠ "" then (1 : ℚ) else 8/10) with hS
    have hlen : 0 < (S.length : ℚ) := by
      have : S ≠ [] := by
        rw [hS]
        intro hc
        exact h (List.append_eq_nil.1 hc)
      have := List.length_pos.2 this
      exact_mod_cast this
    have hub : S.sum ≤ (S.length : ℚ) := by
      have := List.sum_le_card_nsmul S 1 (fun x hx => (scores_bounds entities relations x hx).2)
      simpa using this
    have hlb : (7/10 : ℚ) * (S.length : ℚ) ≤ S.sum := by
      have := List.card_nsmul_le_sum S (7/10 : ℚ)
        (fun x hx => (scores_bounds entities relations x hx).1)
      simpa [nsmul_eq_mul, mul_comm] using this
    constructor
    · exact div_nonneg (le_trans (by positivity) hlb) (le_of_lt hlen)
    · rw [div_le_one hlen]; exact hub

lemma calculate_confidence_pos (entities : List Entity) (relations : List Relation)
    (h : ¬(entities = [] ∧ relations = [])) :
    0 < calculate_confidence entities relations := by
  rw [calculate_confidence_def]
  split_ifs with h2
  · exact absurd (by simpa using h2) h
  · set S := entities.map (fun e => if e.description ≠ "" then (1 : ℚ) else 7/10) ++
      relations.map (fun r => if r.description ≠ "" then (1 : ℚ) else 8/10) with hS
    have hlen : 0 < (S.length : ℚ) := by
      have : S ≠ [] := by
        rw [hS]
        intro hc
        exact h2 (List.append_eq_nil.1 hc)
      have := List.length_pos.2 this
      exact_mod_cast this
    have hlb : (7/10 : ℚ) * (S.length : ℚ) ≤ S.sum := by
      have := List.card_nsmul_le_sum S (7/10 : ℚ)
        (fun x hx => (scores_bounds entities relations x hx).1)
      simpa [nsmul_eq_mul, mul_comm] using this
    exact div_pos (lt_of_lt_of_le (by positivity) hlb) hlen

/-- C7: the confidence score of a `quality_check` response is computed over
the approved lists as the arithmetic mean of per-item weights — 1 for an item
with a non-empty description, 7/10 for an entity without one, 8/10 for a
relation without one — it always lies in [0, 1], and it is 0 exactly when
both approved lists are empty. -/
theorem quality_confidence_mean_bounds (th : ℚ) (tid : String)
    (entities : List Entity) (relations : List Relation) :
    (handle_quality_check th tid entities relations).confidence_score =
      calculate_confidence (handle_quality_check th tid entities relations).entities
        (handle_quality_check th tid entities relations).relations ∧
    ((handle_quality_check th tid entities relations).entities ≠ [] ∨
        (handle_quality_check th tid entities relations).relations ≠ [] →
      (handle_quality_check th tid entities relations).confidence_score *
          ((((handle_quality_check th tid entities relations).entities.length +
            (handle_quality_check th tid entities relations).relations.length : ℕ)) : ℚ) =
        ((handle_quality_check th tid entities relations).entities.map
            (fun e => if e.description ≠ "" then (1 : ℚ) else 7/10)).sum +
          ((handle_quality_check th tid entities relations).relations.map
            (fun r => if r.description ≠ "" then (1 : ℚ) else 8/10)).sum) ∧
    0 ≤ (handle_quality_check th tid entities relations).confidence_score ∧
    (handle_quality_check th tid entities relations).confidence_score ≤ 1 ∧
    ((handle_quality_check th tid entities relations).confidence_score = 0 ↔
      (handle_quality_check th tid entities relations).entities = [] ∧
        (handle_quality_check th tid entities relations).relations = []) := by
  set aE := (handle_quality_check th tid entities relations).entities with haE
  set aR := (handle_quality_check th tid entities relations).relations with haR
  have hconf : (handle_quality_check th tid entities relations).confidence_score =
      calculate_confidence aE aR := rfl
  refine ⟨hconf, ?_, ?_, ?_, ?_⟩
  · intro hne
    rw [hconf, calculate_confidence_def]
    split_ifs with h
    · rcases hne with hne | hne
      · exact absurd (List.map_eq_nil_iff.1 h.1) hne
      · exact absurd (List.map_eq_nil_iff.1 h.2) hne
    · set S := aE.map (fun e => if e.description ≠ "" then (1 : ℚ) else 7/10) ++
        aR.map (fun r => if r.description ≠ "" then (1 : ℚ) else 8/10) with hS
      have hpos : 0 < aE.length + aR.length := by
        rcases hne with hne | hne
        · have := List.length_pos.2 hne
          omega
        · have := List.length_pos.2 hne
          omega
      have hB : ((aE.length + aR.length : ℕ) : ℚ) ≠ 0 := by
        exact_mod_cast Nat.pos_iff_ne_zero.1 hpos
      rw [div_mul_eq_mul_div]
      rw [show S.length = aE.length + aR.length by simp [hS]]
      rw [show S.sum = (aE.map (fun e => if e.description ≠ "" then (1 : ℚ) else 7/10)).sum +
          (aR.map (fun r => if r.description ≠ "" then (1 : ℚ) else 8/10)).sum by
        simp [hS]]
      rw [mul_div_assoc, div_self hB, mul_one]
  · rw [hconf]; exact (calculate_confidence_nonneg_le_one aE aR).1
  · rw [hconf]; exact (calculate_confidence_nonneg_le_one aE aR).2
  · rw [hconf]
    constructor
    · intro h0
      by_contra hne
      exact absurd h0 (ne_of_gt (calculate_confidence_pos aE aR hne))
    · rintro ⟨h1, h2⟩
      simp [calculate_confidence_def, h1, h2]

/-! ### C3 -/

/-- Does this chunk's extraction raise? -/
def raisesChunk : ExtractOutcome → Bool
  | .raises _ => true
  | _ => false

/-- Entities a chunk contributes when its extraction succeeds. -/
def chunkEntities : ExtractOutcome → List Entity
  | .ok es _ => es
  | _ => []

/-- Relations a chunk contributes when its extraction succeeds. -/
def chunkRelations : ExtractOutcome → List Relation
  | .ok _ rs => rs
  | _ => []

lemma filterMap_enumFrom_error_length (rs : List (Except String ChunkResult)) :
    ∀ n, ((List.enumFrom n rs).filterMap (fun p =>
        match p.2 with
        | .error _ => some p.1
        | .ok _ => none)).length =
      rs.countP (fun r => match r with | .error _ => true | .ok _ => false) := by
  induction rs with
  | nil => intro n; simp
  | cons r rs ih =>
      intro n
      cases r <;> simp [List.enumFrom_cons, List.countP_cons, ih (n + 1)]

lemma countP_map_enumFrom_handle_extract (tid : String) (chunks : List ExtractOutcome) :
    ∀ n, (((List.enumFrom n chunks).map (fun p => handle_extract tid p.1 p.2)).countP
        (fun r => match r with | .error _ => true | .ok _ => false)) =
      chunks.countP raisesChunk := by
  induction chunks with
  | nil => intro n; simp
  | cons c cs ih =>
      intro n
      rw [List.enumFrom_cons, List.map_cons, List.countP_cons, List.countP_cons, ih (n + 1)]
      cases c <;> rfl

lemma flatMap_enumFrom_entities (tid : String) (chunks : List ExtractOutcome) :
    ∀ n, (((List.enumFrom n chunks).map (fun p => handle_extract tid p.1 p.2)).flatMap
        (fun r => match r with
          | .error _ => []
          | .ok c => if c.status = "success" then c.entities else [])) =
      chunks.flatMap chunkEntities := by
  induction chunks with
  | nil => intro n; simp
  | cons c cs ih =>
      intro n
      rw [List.enumFrom_cons, List.map_cons, List.flatMap_cons, List.flatMap_cons, ih (n + 1)]
      cases c <;> rfl

lemma flatMap_enumFrom_relations (tid : String) (chunks : List ExtractOutcome) :
    ∀ n, (((List.enumFrom n chunks).map (fun p => handle_extract tid p.1 p.2)).flatMap
        (fun r => match r with
          | .error _ => []
          | .ok c => if c.status = "success" then c.relations else [])) =
      chunks.flatMap chunkRelations := by
  induction chunks with
  | nil => intro n; simp
  | cons c cs ih =>
      intro n
      rw [List.enumFrom_cons, List.map_cons, List.flatMap_cons, List.flatMap_cons, ih (n + 1)]
      cases c <;> rfl

/-- Scenario input for C3: five chunks of which the third raises. -/
def fiveChunks : List ExtractOutcome :=
  [.ok [⟨"E1", "L", "", []⟩] [], .ok [⟨"E2", "L", "", []⟩] [], .raises "boom",
    .ok [⟨"E4", "L", "", []⟩] [], .ok [⟨"E5", "L", "", []⟩] []]

/-- C3: a raising chunk does not abort the batch: the response has type
`batch_extraction_result`, `failed` counts exactly the chunks whose
extraction raised, `successful` is the chunk count minus `failed`, and the
returned entities/relations are the concatenation over the chunks whose
per-chunk result has `success` status; in particular with five chunks where
the third raises, `failed = 1`, `successful = 4`, and only the four
succeeding chunks contribute. -/
theorem extract_batch_partial_failure (tid : String) (chunks : List ExtractOutcome) :
    ((handle_extract_batch tid chunks).type = "batch_extraction_result" ∧
      (handle_extract_batch tid chunks).statistics.total_chunks = chunks.length ∧
      (handle_extract_batch tid chunks).statistics.failed = chunks.countP raisesChunk ∧
      (handle_extract_batch tid chunks).statistics.successful =
        chunks.length - (handle_extract_batch tid chunks).statistics.failed ∧
      (handle_extract_batch tid chunks).entities = chunks.flatMap chunkEntities ∧
      (handle_extract_batch tid chunks).relations = chunks.flatMap chunkRelations) ∧
    ((handle_extract_batch "t" fiveChunks).statistics.failed = 1 ∧
      (handle_extract_batch "t" fiveChunks).statistics.successful = 4 ∧
      (handle_extract_batch "t" fiveChunks).entities =
        [⟨"E1", "L", "", []⟩, ⟨"E2", "L", "", []⟩, ⟨"E4", "L", "", []⟩,
          ⟨"E5", "L", "", []⟩]) := by
  have hfail : (handle_extract_batch tid chunks).statistics.failed =
      chunks.countP raisesChunk := by
    show ((List.enumFrom 0 ((List.enumFrom 0 chunks).map
        (fun p => handle_extract tid p.1 p.2))).filterMap (fun p =>
          match p.2 with
          | .error _ => some p.1
          | .ok _ => none)).length = _
    rw [filterMap_enumFrom_error_length]
    exact countP_map_enumFrom_handle_extract tid chunks 0
  refine ⟨⟨rfl, rfl, hfail, ?_, ?_, ?_⟩, by decide, by decide, by decide⟩
  · show chunks.length -
        ((List.enumFrom 0 ((List.enumFrom 0 chunks).map
          (fun p => handle_extract tid p.1 p.2))).filterMap (fun p =>
            match p.2 with
            | .error _ => some p.1
            | .ok _ => none)).length = _
    rw [filterMap_enumFrom_error_length, countP_map_enumFrom_handle_extract tid chunks 0]
    rw [hfail]
  · exact flatMap_enumFrom_entities tid chunks 0
  · exact flatMap_enumFrom_relations tid chunks 0

/-! ### C2 -/

lemma mergeEntities_length_le (dup : Entity → Entity → Bool)
    (batch existing : List Entity) :
    (mergeEntities dup existing batch).length ≤ existing.length + batch.length := by
  induction batch generalizing existing with
  | nil => simp [mergeEntities]
  | cons e b ih =>
      unfold mergeEntities at ih ⊢
      rw [List.foldl_cons]
      split_ifs with h
      · have := ih existing
        simp only [List.length_cons]
        omega
      · have := ih (existing ++ [e])
        simp only [List.length_append, List.length_cons, List.length_nil] at this ⊢
        omega

/-- C2: the merge statistics always satisfy
`original_count = len(existing) + len(batch)`,
`merged_count = len(merged_entities) ≤ original_count`, and
`duplicates_found = original_count − merged_count ≥ 0`, for any duplicate
predicate the semantic merge may use. -/
theorem merge_statistics_consistent (dup : Entity → Entity → Bool) (tid : String)
    (batch_entities : List Entity) (batch_relations : List Relation)
    (existing_entities : List Entity) (existing_relations : List Relation) :
    (handle_merge dup tid batch_entities batch_relations existing_entities
        existing_relations).statistics.original_count =
      existing_entities.length + batch_entities.length ∧
    (handle_merge dup tid batch_entities batch_relations existing_entities
        existing_relations).statistics.merged_count =
      (handle_merge dup tid batch_entities batch_relations existing_entities
        existing_relations).merged_entities.length ∧
    (handle_merge dup tid batch_entities batch_relations existing_entities
        existing_relations).statistics.merged_count ≤
      (handle_merge dup tid batch_entities batch_relations existing_entities
        existing_relations).statistics.original_count ∧
    (handle_merge dup tid batch_entities batch_relations existing_entities
        existing_relations).statistics.duplicates_found =
      ((handle_merge dup tid batch_entities batch_relations existing_entities
        existing_relations).statistics.original_count : ℤ) -
      ((handle_merge dup tid batch_entities batch_relations existing_entities
        existing_relations).statistics.merged_count : ℤ) ∧
    0 ≤ (handle_merge dup tid batch_entities batch_relations existing_entities
        existing_relations).statistics.duplicates_found := by
  have hle : (mergeEntities dup existing_entities batch_entities).length ≤
      existing_entities.length + batch_entities.length :=
    mergeEntities_length_le dup batch_entities existing_entities
  refine ⟨rfl, rfl, hle, rfl, ?_⟩
  show (0 : ℤ) ≤ ((existing_entities.length + batch_entities.length : ℕ) : ℤ) -
    ((mergeEntities dup existing_entities batch_entities).length : ℤ)
  omega

/-! ### C6 -/

/-- C6 (refuting the publication half): when a registered handler raises, no
structured error envelope reaches the reply channel — `send_error` delegates
to `send`, whose `timestamp=time.time()` raises `NameError` before
`redis.publish` because `agents/base.py` never imports `time` — the
exception escapes `_process_message`, is swallowed by `_listen`'s own
try/except, and the receive loop does keep processing every later envelope:
only the loop-survival half of the claim holds. -/
theorem handler_exception_no_error_envelope (agent_id output_channel err : String)
    (msg : Envelope) (handlerFor : Envelope → Option HandlerOutcome)
    (pre post : List Envelope) :
    (process_message agent_id output_channel (some (.raises err)) msg).published
      = [] ∧
    (process_message agent_id output_channel (some (.raises err)) msg).escaped =
      some nameErrorTime ∧
    listen_loop agent_id output_channel handlerFor (pre ++ msg :: post) =
      listen_loop agent_id output_channel handlerFor pre ++
        (process_message agent_id output_channel (handlerFor msg) msg).published ++
        listen_loop agent_id output_channel handlerFor post := by
  refine ⟨rfl, rfl, ?_⟩
  unfold listen_loop
  rw [List.flatMap_append, List.flatMap_cons]
  rw [List.append_assoc]

/-! ### C4 -/

/-- C4 (refuting): whatever the envelope and whatever the handler does —
missing, returning a falsy or a truthy dict, or raising — the agent
publishes nothing at all: the success reply and the error fallback both die
in `send`'s `NameError` before `redis.publish`.  Since the coordinator also
has no timeout (C5), a sender waiting on `reply_to` gets neither a response
nor a timeout. -/
theorem no_reply_is_ever_published (agent_id output_channel : String)
    (handler : Option HandlerOutcome) (msg : Envelope) :
    (process_message agent_id output_channel handler msg).published = [] := by
  match handler with
  | none => rfl
  | some (.raises e) => rfl
  | some (.success none) => cases msg.reply_to <;> rfl
  | some (.success (some d)) =>
      cases hrt : msg.reply_to with
      | none => simp [process_message, hrt]
      | some c =>
          cases hd : d.isEmpty <;>
            simp [process_message, send, send_error, hrt, hd]

/-! ### C10 -/

/-- C10: a handler that completes normally but returns a falsy value (`None`
or the empty dict) produces no published envelope and no exception at all,
whatever the envelope's `reply_to` is — the falsy guard short-circuits
before `send` is reached, and the requester sees nothing on the reply
channel. -/
theorem falsy_result_publishes_nothing (agent_id output_channel : String)
    (msg : Envelope) (r : Option RDict) (h : truthy r = false) :
    process_message agent_id output_channel (some (.success r)) msg =
      { published := [], escaped := none } := by
  unfold process_message
  match r, h with
  | none, _ => cases msg.reply_to <;> rfl
  | some d, h =>
      have hd : d.isEmpty = true := by
        cases hdd : d.isEmpty
        · rw [truthy, hdd] at h
          exact absurd h (by decide)
        · rfl
      cases msg.reply_to <;> simp [hd]

/-- Witness for C10: a `None` result and a `{}` result, each with `reply_to`
set, publish nothing. -/
theorem falsy_result_publishes_nothing_witness :
    process_message "quality" "agent:quality:output" (some (.success none))
      ⟨"t", "quality_check", "coordinator", some "rc"⟩ =
      { published := [], escaped := none } ∧
    process_message "quality" "agent:quality:output" (some (.success (some [])))
      ⟨"t", "quality_check", "coordinator", some "rc"⟩ =
      { published := [], escaped := none } :=
  ⟨falsy_result_publishes_nothing "quality" "agent:quality:output"
      ⟨"t", "quality_check", "coordinator", some "rc"⟩ none rfl,
    falsy_result_publishes_nothing "quality" "agent:quality:output"
      ⟨"t", "quality_check", "coordinator", some "rc"⟩ (some []) rfl⟩

/-! ### C5 -/

/-- The distill request envelope of a run with task id `"t1"`, as the
distiller agent receives it. -/
def distillFailMsg : Envelope :=
  { task_id := "t1", type := "distill", source := "coordinator",
    reply_to := (distillRequest "t1").reply_to }

/-- An envelope on the distill reply channel whose type is not
`"text_chunks"`: the shape of the structured error reply the spec describes
for a distiller failure (per C4/C6 the source in fact delivers nothing at
all on that channel). -/
def nonMatchingReply : Published :=
  { channel := "coordinator:" ++ "t1", task_id := "t1", type := "error",
    source := "distiller",
    payload := [("type", "error"), ("task_id", "t1"),
      ("error", "distillation failed"), ("original_type", "distill")] }

/-- C5 (refuting the deadline): on a distiller failure nothing at all is
published to the reply channel (the error reply dies in `send`'s
`NameError`), and the coordinator's wait loop has no deadline — there is no
`asyncio.wait_for`, and the `raise TimeoutError` line runs only if the
pubsub stream itself terminates — so it stays waiting on the empty delivery
sequence; and even were envelopes delivered, any number of
non-`text_chunks` ones (such as the spec's error reply) leave it still
waiting. -/
theorem coordinator_wait_no_deadline (n : ℕ) :
    (process_message "distiller" "agent:distiller:output"
        (some (.raises "distillation failed")) distillFailMsg).published = [] ∧
    waitScan "text_chunks" ([] : List Published) = .stillWaiting ∧
    nonMatchingReply.type = "error" ∧
    waitScan "text_chunks" (List.replicate n nonMatchingReply) = .stillWaiting := by
  refine ⟨rfl, rfl, rfl, ?_⟩
  induction n with
  | zero => rfl
  | succ n ih =>
      rw [List.replicate_succ]
      have ht : nonMatchingReply.type = "error" := rfl
      simp only [waitScan, ht]
      rw [if_neg (by decide)]
      exact ih

/-! ### C8 -/

lemma pyRange0_5_2 : pyRange0 5 2 = [0, 2, 4] := by decide

lemma extractProgressReports_5_2 :
    extractProgressReports 5 2 = [(2 : ℚ)/5, 4/5, 1] := by
  unfold extractProgressReports
  rw [pyRange0_5_2]
  simp only [List.map_cons, List.map_nil]
  norm_num

/-- C8 counterexample: with 5 chunks and batch size 2 the callback before the
first batch — when no chunk has yet been processed — reports 2/5, not
0/5. -/
theorem progress_first_report_not_prior_fraction :
    (extractProgressReports 5 2).head? = some ((2 : ℚ)/5) ∧
    ((2 : ℚ)/5 ≠ (0 : ℚ)/5) := by
  constructor
  · rw [extractProgressReports_5_2]
    rfl
  · norm_num

/-- C8 amended: before each batch the callback is invoked with
`(i + len(batch))/total`, i.e. `min ((k+1)·batch_size) total / total` for the
k-th batch — the fraction of chunks processed once the current batch
completes, not the fraction processed in previous batches. -/
theorem progress_reports_after_current_batch (total bs k : ℕ)
    (hbs : 0 < bs) (hk : k * bs < total) :
    (extractProgressReports total bs)[k]? =
      some (((min ((k + 1) * bs) total : ℕ) : ℚ) / (total : ℚ)) := by
  have hmul : (k + 1) * bs = k * bs + bs := by ring
  have hnum : k * bs + min bs (total - k * bs) = min ((k + 1) * bs) total := by
    rw [hmul]
    generalize k * bs = m at hk ⊢
    omega
  have hkn : k < (total + bs - 1) / bs := by
    rw [Nat.lt_iff_add_one_le, Nat.le_div_iff_mul_le hbs, hmul]
    generalize k * bs = m at hk ⊢
    omega
  unfold extractProgressReports pyRange0
  rw [List.getElem?_map, List.getElem?_map, List.getElem?_range hkn,
    Option.map_some', Option.map_some']
  rw [hnum]

/-- Witness for C8's amended theorem at 5 chunks, batch size 2, second
batch. -/
theorem progress_reports_after_current_batch_witness :
    (extractProgressReports 5 2)[1]? =
      some (((min ((1 + 1) * 2) 5 : ℕ) : ℚ) / (5 : ℚ)) :=
  progress_reports_after_current_batch 5 2 1 (by decide) (by decide)

/-! ### C9 -/

lemma data_append (s t : String) : (s ++ t).data = s.data ++ t.data := rfl

lemma string_append_cancel_ne (s a b : String) (h : a.data ≠ b.data) :
    s ++ a ≠ s ++ b := by
  intro hc
  apply h
  have hd := congrArg String.data hc
  rw [data_append, data_append] at hd
  exact List.append_cancel_left hd

lemma string_ne_append_of_ne_nil (s a : String) (h : a.data ≠ []) :
    s ≠ s ++ a := by
  intro hc
  have hd := congrArg (fun t => t.data.length) hc
  simp only [data_append, List.length_append] at hd
  have hz : a.data.length = 0 := by omega
  exact h (List.eq_nil_of_length_eq_zero hz)

/-- C9 counterexample: for task id "t" the distill request's reply channel is
`coordinator:t`, not the claimed `coordinator:t:distill`. -/
theorem distill_reply_channel_missing_stage :
    (distillRequest "t").reply_to = some ("coordinator:" ++ "t") ∧
    ("coordinator:" ++ "t") ≠ "coordinator:t:distill" :=
  ⟨rfl, by decide⟩

/-- C9 amended: the extract, quality, merge and store requests use reply
channels of the form `coordinator:<task_id>:<stage>`, while the distill
request uses `coordinator:<task_id>` with no stage component; the five reply
channels of one task are nonetheless pairwise distinct. -/
theorem reply_channels_per_stage (task_id : String) :
    (distillRequest task_id).reply_to = some ("coordinator:" ++ task_id) ∧
    (extractBatchRequest task_id).reply_to =
      some ("coordinator:" ++ task_id ++ ":extract") ∧
    (qualityCheckRequest task_id).reply_to =
      some ("coordinator:" ++ task_id ++ ":quality") ∧
    (mergeRequest task_id).reply_to =
      some ("coordinator:" ++ task_id ++ ":merge") ∧
    (storeRequest task_id).reply_to =
      some ("coordinator:" ++ task_id ++ ":store") ∧
    ((distillRequest task_id).reply_to ≠ (extractBatchRequest task_id).reply_to ∧
      (distillRequest task_id).reply_to ≠ (qualityCheckRequest task_id).reply_to ∧
      (distillRequest task_id).reply_to ≠ (mergeRequest task_id).reply_to ∧
      (distillRequest task_id).reply_to ≠ (storeRequest task_id).reply_to ∧
      (extractBatchRequest task_id).reply_to ≠ (qualityCheckRequest task_id).reply_to ∧
      (extractBatchRequest task_id).reply_to ≠ (mergeRequest task_id).reply_to ∧
      (extractBatchRequest task_id).reply_to ≠ (storeRequest task_id).reply_to ∧
      (qualityCheckRequest task_id).reply_to ≠ (mergeRequest task_id).reply_to ∧
      (qualityCheckRequest task_id).reply_to ≠ (storeRequest task_id).reply_to ∧
      (mergeRequest task_id).reply_to ≠ (storeRequest task_id).reply_to) := by
  refine ⟨rfl, rfl, rfl, rfl, rfl, ?_, ?_, ?_, ?_, ?_, ?_, ?_, ?_, ?_, ?_⟩ <;>
    simp only [distillRequest, extractBatchRequest, qualityCheckRequest,
      mergeRequest, storeRequest, ne_eq, Option.some.injEq]
  · exact string_ne_append_of_ne_nil _ ":extract" (by decide)
  · exact string_ne_append_of_ne_nil _ ":quality" (by decide)
  · exact string_ne_append_of_ne_nil _ ":merge" (by decide)
  · exact string_ne_append_of_ne_nil _ ":store" (by decide)
  · exact string_append_cancel_ne _ ":extract" ":quality" (by decide)
  · exact string_append_cancel_ne _ ":extract" ":merge" (by decide)
  · exact string_append_cancel_ne _ ":extract" ":store" (by decide)
  · exact string_append_cancel_ne _ ":quality" ":merge" (by decide)
  · exact string_append_cancel_ne _ ":quality" ":store" (by decide)
  · exact string_append_cancel_ne _ ":merge" ":store" (by decide)

/-- Input for the C7 witness. -/
def c7Ents : List Entity := [⟨"AI", "Concept", "", []⟩, ⟨"ML", "Tech", "desc", []⟩]

/-- Witness for C7 at a concrete quality_check input with a non-empty
approved entity list. -/
theorem quality_confidence_mean_bounds_witness :
    ((handle_quality_check (6/10) "t" c7Ents []).entities ≠ [] ∨
      (handle_quality_check (6/10) "t" c7Ents []).relations ≠ []) ∧
    ((handle_quality_check (6/10) "t" c7Ents []).confidence_score *
        ((((handle_quality_check (6/10) "t" c7Ents []).entities.length +
          (handle_quality_check (6/10) "t" c7Ents []).relations.length : ℕ)) : ℚ) =
      ((handle_quality_check (6/10) "t" c7Ents []).entities.map
          (fun e => if e.description ≠ "" then (1 : ℚ) else 7/10)).sum +
        ((handle_quality_check (6/10) "t" c7Ents []).relations.map
          (fun r => if r.description ≠ "" then (1 : ℚ) else 8/10)).sum) ∧
    0 ≤ (handle_quality_check (6/10) "t" c7Ents []).confidence_score ∧
    (handle_quality_check (6/10) "t" c7Ents []).confidence_score ≤ 1 :=
  have hne : (handle_quality_check (6/10) "t" c7Ents []).entities ≠ [] := by decide
  ⟨Or.inl hne,
    (quality_confidence_mean_bounds (6/10) "t" c7Ents []).2.1 (Or.inl hne),
    (quality_confidence_mean_bounds (6/10) "t" c7Ents []).2.2.1,
    (quality_confidence_mean_bounds (6/10) "t" c7Ents []).2.2.2.1⟩

end WebDisk
